import Mathlib

/-!
Shallow embedding of the web-content acquisition pipeline of `context-mcp`
(source file `src/tools/fetchSite.ts`, here `src/unnamed/part_000`).

Host-environment facilities used by the source (WHATWG URL parsing, DNS
resolution, the axios HTTP client's network layer, the jsdom/Readability/
Turndown extraction stack, the sharp image encoder, the filesystem and the
clock) are modelled as explicit oracle fields of an `Env` record; everything
the repository itself computes (robots.txt parsing, private-IP tests, slug
sanitization, truncation, frontmatter, the redirect loop, caching, batch
orchestration) is translated from the source.

JavaScript strings are modelled as Lean `String`/`List Char`; `.length`,
`.slice` and `charCodeAt` act on UTF-16 code units in JS and on characters
here, which agree on the ASCII/BMP inputs the claims exercise.  All helper
recursions are structural so that concrete runs reduce inside the kernel.
-/

namespace ContextMcp

set_option maxRecDepth 20000

/-! ## Character-list utilities (models of the JS string/regex operations) -/

/-- Model of JS `String.prototype.split(sep)` for a one-character separator:
`"".split(c) = [""]`, separators at the edges yield empty pieces. -/
def splitOnChar (sep : Char) : List Char → List (List Char)
  | [] => [[]]
  | c :: rest =>
    let r := splitOnChar sep rest
    if c = sep then [] :: r
    else
      match r with
      | [] => [[c]]
      | h :: t => (c :: h) :: t

/-- Model of JS `String.prototype.trim()`: strip leading and trailing
whitespace (ASCII whitespace suffices for the inputs considered). -/
def trimChars (l : List Char) : List Char :=
  ((l.dropWhile Char.isWhitespace).reverse.dropWhile Char.isWhitespace).reverse

/-- Model of JS `String.prototype.toLowerCase()` (ASCII range; JS also maps
non-ASCII letters, which the claims do not exercise). -/
def lowerChars (l : List Char) : List Char :=
  l.map Char.toLower

/-- Does `l` start with the pattern `pat`? -/
def startsWithChars (pat l : List Char) : Bool :=
  l.take pat.length = pat

/-- Model of JS `String.prototype.includes(pat)` on char lists. -/
def containsChars (pat : List Char) : List Char → Bool
  | [] => startsWithChars pat []
  | c :: rest => startsWithChars pat (c :: rest) || containsChars pat rest

/-- Decimal digits of `n`, most significant first; `fuel` bounds recursion
structurally so the kernel can reduce concrete calls (`fuel > n` suffices). -/
def natDigits : Nat → Nat → List Char
  | 0, _ => []
  | fuel + 1, n =>
    if n < 10 then [Char.ofNat (48 + n)]
    else natDigits fuel (n / 10) ++ [Char.ofNat (48 + n % 10)]

/-- Model of JS number-to-string interpolation for a nonnegative integer
(`${n}` inside a template literal). -/
def natRepr (n : Nat) : String :=
  ⟨natDigits (n + 1) n⟩

/-- Model of JS `Number(s)` restricted to the strings that occur as
dot-separated pieces of IP addresses: `Number("") = 0`, a digit string is its
value, anything else is `NaN` (`none`).  Signs, exponents, hex and fractional
forms never occur for these inputs. -/
def jsNum? (l : List Char) : Option Nat :=
  if l = [] then some 0
  else if l.all Char.isDigit then some (l.foldl (fun acc c => acc * 10 + (c.toNat - 48)) 0)
  else none

/-! ## robots.txt parsing — `checkRobotsTxt`'s line loop -/

/-- One trimmed, non-comment robots.txt line, split like JS
`trimmed.split(":", 2)`: the field before the first `:` and (when a `:`
exists) the piece up to the second `:`. -/
def robotsLineParts (trimmed : List Char) : List Char × Option (List Char) :=
  let parts := splitOnChar ':' trimmed
  (parts.headD [], parts.get? 1)

/-- The `for (const line of lines)` loop body of `checkRobotsTxt`, threading
the `appliesToAll` flag; returns the final `disallowAll` (the loop breaks at
the first wildcard `Disallow: /`). -/
def robotsLoop : List (List Char) → Bool → Bool
  | [], _ => false
  | line :: rest, appliesToAll =>
    let trimmed := trimChars line
    if trimmed = [] || trimmed.headD ' ' = '#' then robotsLoop rest appliesToAll
    else
      let (field, valueRaw) := robotsLineParts trimmed
      let fieldLower := lowerChars field
      let value := trimChars (valueRaw.getD [])
      if fieldLower = "user-agent".data then robotsLoop rest (value = ['*'])
      else if fieldLower = "disallow".data && appliesToAll && value = ['/'] then true
      else robotsLoop rest appliesToAll

/-- Splitting on `/\r?\n/`: split on `'\n'`, then strip one trailing `'\r'`
from each piece. -/
def splitLines (text : List Char) : List (List Char) :=
  (splitOnChar '\n' text).map fun piece =>
    if piece.getLast? = some '\r' then piece.dropLast else piece

/-- Does a robots.txt body contain a wildcard user-agent record with a
`Disallow: /` rule?  Translated from the parsing loop of `checkRobotsTxt`. -/
def robotsDisallowAll (text : String) : Bool :=
  robotsLoop (splitLines text.data) false

/-! ## Slug sanitization — `sanitizeDirname` / `extractDirnameFromUrl` -/

/-- Model of `.replace(/\s+/g, "-")`: each maximal whitespace run becomes one
hyphen.  `inWs` records whether the previous character was whitespace. -/
def wsToHyphen (inWs : Bool) : List Char → List Char
  | [] => []
  | c :: rest =>
    if c.isWhitespace then
      if inWs then wsToHyphen true rest else '-' :: wsToHyphen true rest
    else c :: wsToHyphen false rest

/-- Model of replacing every hyphen run by one hyphen (the `-+` regex with
the global flag). -/
def collapseHyphens (inH : Bool) : List Char → List Char
  | [] => []
  | c :: rest =>
    if c = '-' then
      if inH then collapseHyphens true rest else '-' :: collapseHyphens true rest
    else c :: collapseHyphens false rest

/-- Model of `.replace(/^-|-$/g, "")`: remove one leading and one trailing
hyphen (the regex matches each at most once per pass). -/
def stripEdgeHyphens (l : List Char) : List Char :=
  let l1 := match l with
    | '-' :: t => t
    | other => other
  if l1.getLast? = some '-' then l1.dropLast else l1

/-- The character class kept by `.replace(/[^a-z0-9-]/g, "")`. -/
def isAllowedC (c : Char) : Bool :=
  ('a' ≤ c && c ≤ 'z') || c.isDigit || c = '-'

/-- The sanitization chain of `sanitizeDirname` applied to the chosen base
string, `nowMs` standing for `Date.now()`. -/
def sanitizeCore (s : String) (nowMs : Nat) : String :=
  let d0 := trimChars (lowerChars s.data)
  let d1 := wsToHyphen false d0
  let d2 := d1.filter isAllowedC
  let d3 := collapseHyphens false d2
  let d4 := stripEdgeHyphens d3
  let d5 := if d4.length > 100 then d4.take 100 else d4
  if d5 = [] then "untitled-" ++ natRepr nowMs else ⟨d5⟩

/-- Model of JS `a || b` for strings (empty string is falsy). -/
def jsOrStr (a b : String) : String :=
  if a = "" then b else a

/-- Fields of a parsed WHATWG URL that the source reads.  `new URL(...)` is
the `parse` oracle of `Env`; a `none` result models the constructor throwing. -/
structure URLRec where
  protocol : String
  hostname : String
  origin : String
  pathname : String
  deriving Repr, DecidableEq

/-- Model of `.replace(/^\/+|\/+$/g, "")`: strip all leading and trailing
slashes. -/
def stripSlashes (l : List Char) : List Char :=
  ((l.dropWhile (· = '/')).reverse.dropWhile (· = '/')).reverse

/-- Model of `.replace(/\.[^.]+$/, "")`: drop a final `.ext` (a dot followed
by one or more non-dot characters at the end). -/
def dropLastExt (l : List Char) : List Char :=
  let rev := l.reverse
  let ext := rev.takeWhile (fun c => c ≠ '.')
  let rest := rev.dropWhile (fun c => c ≠ '.')
  match rest with
  | '.' :: rest2 => if ext = [] then l else rest2.reverse
  | _ => l

/-- Translated from `extractDirnameFromUrl`: last non-empty path segment of
the URL without its extension, falling back to the hostname, then to
`"untitled"` when the URL does not parse. -/
def extractDirnameFromUrl (parse : String → Option URLRec) (rawUrl : String) : String :=
  match parse rawUrl with
  | none => "untitled"
  | some u =>
    let pathname := stripSlashes u.pathname.data
    if pathname = [] then u.hostname
    else
      let parts := splitOnChar '/' pathname
      let last := dropLastExt (parts.getLastD [])
      if last = [] then u.hostname else ⟨last⟩

/-- Translated from `sanitizeDirname`: slugify the title (or, when the title
is empty, a name derived from the URL). -/
def sanitizeDirname (parse : String → Option URLRec) (nowMs : Nat)
    (title url : String) : String :=
  sanitizeCore (jsOrStr title (extractDirnameFromUrl parse url)) nowMs

/-! ## IP classification — `isPrivateIP` -/

/-- Numeric value of a digit string. -/
def digitsToNat (l : List Char) : Nat :=
  l.foldl (fun acc c => acc * 10 + (c.toNat - 48)) 0

/-- Is `l` a valid dotted-quad IPv4 piece (1–3 digits, no leading zero,
value at most 255)? -/
def isIPv4Part (l : List Char) : Bool :=
  !l.isEmpty && l.length ≤ 3 && l.all Char.isDigit &&
    (l = ['0'] || l.headD ' ' ≠ '0') && digitsToNat l ≤ 255

/-- Model of node's `net.isIP`: `4` for a dotted-quad IPv4 literal, `6` for a
colon-bearing (IPv6-shaped) literal, `0` otherwise.  Node additionally
validates IPv6 syntax; for the well-formed addresses a DNS lookup returns the
two agree, and `isPrivateIP` treats both `6` and malformed-but-colon-bearing
strings identically (its dotted-decimal parse yields `NaN` parts either
way). -/
def netIsIP (s : String) : Nat :=
  if (splitOnChar '.' s.data).all isIPv4Part && (splitOnChar '.' s.data).length = 4 then 4
  else if s.data.contains ':' then 6
  else 0

/-- Element `i` of the mapped parts list; `none` models both a missing index
(JS `undefined`) and `NaN`. -/
def nthNum (parts : List (Option Nat)) (i : Nat) : Option Nat :=
  (parts.get? i).bind id

/-- JS `x >= v` where `x` may be `NaN`/`undefined` (then false). -/
def geOpt (o : Option Nat) (v : Nat) : Bool :=
  match o with
  | some n => v ≤ n
  | none => false

/-- JS `x <= v` where `x` may be `NaN`/`undefined` (then false). -/
def leOpt (o : Option Nat) (v : Nat) : Bool :=
  match o with
  | some n => n ≤ v
  | none => false

/-- Translated from `isPrivateIP`: split on `"."`, coerce each piece with
`Number`, and test the private IPv4 ranges.  Note the source never parses
IPv6: for `"::1"` the single piece coerces to `NaN` and every range test is
false. -/
def isPrivateIP (ip : String) : Bool :=
  if netIsIP ip = 0 then false
  else
    let parts := (splitOnChar '.' ip.data).map jsNum?
    if nthNum parts 0 = some 10 then true
    else if nthNum parts 0 = some 172 && geOpt (nthNum parts 1) 16 && leOpt (nthNum parts 1) 31 then true
    else if nthNum parts 0 = some 192 && nthNum parts 1 = some 168 then true
    else if nthNum parts 0 = some 127 then true
    else if nthNum parts 0 = some 169 && nthNum parts 1 = some 254 then true
    else false

/-! ## Environment, events and state -/

/-- Observable effects of one run, used to state "no network fetch" /
"no write" properties. -/
inductive Ev where
  | dnsLookup (host : String)
  | netGet (url : String)
  | fsRead (path : String)
  | fsWrite (path : String)
  | manifestWrite
  deriving Repr, DecidableEq

/-- A raw HTTP response as delivered by the network layer, before axios
applies `validateStatus`. -/
structure HttpResp where
  status : Nat
  body : String
  contentType : Option String := none
  location : Option String := none
  responseUrl : Option String := none
  deriving Repr, DecidableEq

/-- An `<img>` reference collected by extraction. -/
structure ImageInfo where
  src : String
  alt : String
  data : Option String := none
  filename : Option String := none
  deriving Repr, DecidableEq

/-- Result of the jsdom/Readability/Turndown extraction stack. -/
structure ExtractedContent where
  markdown : String
  images : List ImageInfo := []
  title : Option String := none
  description : Option String := none
  deriving Repr, DecidableEq

/-- One manifest record (`CacheEntry` in the source). -/
structure CacheEntry where
  directory : String
  title : String
  fetched : String
  contentPath : String
  contentHash : String
  imageCount : Nat
  charCount : Nat
  deriving Repr, DecidableEq

/-- Host-environment oracles: URL parsing (`new URL`), DNS, the raw network,
the extraction stack, the sharp encoder, relative-URL resolution, the clock,
and the SSRF-guard-disable flag. `none` models the facility throwing. -/
structure Env where
  parse : String → Option URLRec
  dns : String → Option (List String)
  net : String → Option HttpResp
  extract : String → String → ExtractedContent
  sharpProc : String → Option String
  resolveRel : String → String → Option String
  nowISO : String
  nowMs : Nat
  disableGuard : Bool := false

/-- First-match association-list lookup (recent bindings shadow older ones,
so prepending models key overwrite). -/
def lookupA {α : Type} : List (String × α) → String → Option α
  | [], _ => none
  | (k, v) :: rest, key => if k = key then some v else lookupA rest key

/-- Record overwrite, modelled as shadowing. -/
def updateA {α : Type} (l : List (String × α)) (k : String) (v : α) :
    List (String × α) :=
  (k, v) :: l

/-- Persistent state: the files on disk and the cache manifest's entries.
The manifest is kept structured rather than JSON-serialized; `loadCacheManifest`
reads it back intact, which models a well-formed manifest file. -/
structure St where
  files : List (String × String) := []
  manifest : List (String × CacheEntry) := []

/-! ## HTTP client and URL validation -/

/-- Model of `axios.get` given the raw network and a `validateStatus`
predicate: a network failure or a rejected status throws (`error`). -/
def axiosGet (net : String → Option HttpResp) (okStatus : Nat → Bool)
    (url : String) : Except Unit HttpResp :=
  match net url with
  | none => .error ()
  | some r => if okStatus r.status then .ok r else .error ()

/-- `validateStatus` of the page fetch: `status >= 200 && status < 400`. -/
def statusPage (s : Nat) : Bool :=
  decide (200 ≤ s) && decide (s < 400)

/-- `validateStatus` of the robots fetch: `s >= 200 && s < 500`. -/
def statusRobots (s : Nat) : Bool :=
  decide (200 ≤ s) && decide (s < 500)

/-- axios's default `validateStatus` (used by `fetchImage`): 2xx only. -/
def statusImage (s : Nat) : Bool :=
  decide (200 ≤ s) && decide (s < 300)

/-- Configured limits (the source reads these from the environment with these
defaults). -/
def MAX_REDIRECTS : Nat := 3

/-- Default page byte ceiling. -/
def MAX_HTML_BYTES : Nat := 2000000

/-- Default image byte ceiling. -/
def MAX_IMAGE_BYTES : Nat := 10000000

/-- Default output character ceiling. -/
def CHARACTER_LIMIT : Nat := 25000

/-- Default content directory. -/
def DEFAULT_CONTENT_DIR : String := "./context"

/-- Translated from `validateUrlSafety`: guard-disable flag, URL parse,
scheme check, localhost-literal check, then DNS resolution with every
address tested by `isPrivateIP`. -/
def validateUrlSafety (env : Env) (rawUrl : String) : Except String Unit × List Ev :=
  if env.disableGuard then (.ok (), [])
  else
    match env.parse rawUrl with
    | none => (.error ("Invalid URL: " ++ rawUrl), [])
    | some url =>
      if url.protocol ≠ "http:" ∧ url.protocol ≠ "https:" then
        (.error "Only http:// and https:// URLs are allowed", [])
      else
        if url.hostname = "localhost" ∨ url.hostname = "127.0.0.1" ∨ url.hostname = "::1" then
          (.error "Access to localhost is blocked by SSRF guard", [])
        else
          match env.dns url.hostname with
          | none => (.error ("DNS lookup failed for " ++ url.hostname), [.dnsLookup url.hostname])
          | some addrs =>
            match addrs.find? isPrivateIP with
            | some a => (.error ("Access to private IP " ++ a ++ " is blocked by SSRF guard"), [.dnsLookup url.hostname])
            | none => (.ok (), [.dnsLookup url.hostname])

/-- JS truthiness of `res.headers.location` (absent or empty is falsy). -/
def locTruthy : Option String → Bool
  | some s => s ≠ ""
  | none => false

/-- The `while (redirects <= MAX_REDIRECTS)` loop of `fetchWithLimits`.
`fuel` is the number of remaining permitted iterations
(`MAX_REDIRECTS + 1 - redirects`); the third argument carries the response
of the previous iteration, mirroring the mutable `response` variable.  When
fuel runs out the loop exits with that response — the source then processes
it like a final response. -/
def fetchLoop (env : Env) : Nat → String → Option HttpResp →
    Except String (HttpResp × String) × List Ev
  | 0, currentUrl, response =>
    (match response with
     | none => .error "No response received"
     | some r => .ok (r, currentUrl), [])
  | fuel + 1, currentUrl, _ =>
    match axiosGet env.net statusPage currentUrl with
    | .error _ => (.error ("Request failed for " ++ currentUrl), [.netGet currentUrl])
    | .ok res =>
      if 300 ≤ res.status ∧ res.status < 400 ∧ locTruthy res.location then
        match env.resolveRel (res.location.getD "") currentUrl with
        | none => (.error "Invalid redirect location", [.netGet currentUrl])
        | some next =>
          match validateUrlSafety env next with
          | (.error e, evs) => (.error e, .netGet currentUrl :: evs)
          | (.ok (), evs) =>
            let out := fetchLoop env fuel next (some res)
            (out.1, .netGet currentUrl :: evs ++ out.2)
      else (.ok (res, currentUrl), [.netGet currentUrl])

/-- The value returned by `fetchWithLimits`. -/
structure FetchOk where
  html : String
  contentType : Option String
  finalUrl : String
  deriving Repr, DecidableEq

/-- Translated from `fetchWithLimits`: validate, run the redirect loop, check
the payload size, and read the final URL (axios's recorded `responseUrl`,
else the current URL). -/
def fetchWithLimits (env : Env) (url : String) : Except String FetchOk × List Ev :=
  match validateUrlSafety env url with
  | (.error e, evs) => (.error e, evs)
  | (.ok (), evs) =>
    match fetchLoop env (MAX_REDIRECTS + 1) url none with
    | (.error e, evs2) => (.error e, evs ++ evs2)
    | (.ok (res, currentUrl), evs2) =>
      if MAX_HTML_BYTES < res.body.length then
        (.error "HTML payload exceeds maximum allowed size", evs ++ evs2)
      else
        (.ok ⟨res.body, res.contentType, res.responseUrl.getD currentUrl⟩, evs ++ evs2)

/-! ## Robots compliance — `checkRobotsTxt` -/

/-- The body of `checkRobotsTxt`'s try block: parse the URL, fetch
`{origin}/robots.txt` (statuses below 500 accepted), treat 4xx as no
restriction, and throw when a wildcard record disallows `/`. -/
def checkRobotsTxtCore (env : Env) (url : String) : Except String Unit × List Ev :=
  match env.parse url with
  | none => (.error ("Invalid URL: " ++ url), [])
  | some u =>
    let robotsUrl := u.origin ++ "/robots.txt"
    match axiosGet env.net statusRobots robotsUrl with
    | .error _ => (.error "robots.txt request failed", [.netGet robotsUrl])
    | .ok res =>
      if 400 ≤ res.status then (.ok (), [.netGet robotsUrl])
      else if robotsDisallowAll res.body then
        (.error "Access disallowed by robots.txt for autonomous agents (Disallow: /)",
         [.netGet robotsUrl])
      else (.ok (), [.netGet robotsUrl])

/-- Translated from `checkRobotsTxt` as written: the `throw` for
`disallowAll` sits inside the same `try` whose trailing `catch` ignores every
error, so the function never propagates any failure — only its effects
remain. -/
def checkRobotsTxt (env : Env) (url : String) : List Ev :=
  (checkRobotsTxtCore env url).2

/-! ## Content classification, truncation, hashing, frontmatter -/

/-- Does the lowered text contain `<html` followed by whitespace or `>` at
this position? -/
def hasHtmlTagAt : List Char → Bool
  | '<' :: 'h' :: 't' :: 'm' :: 'l' :: c :: _ => c.isWhitespace || c = '>'
  | _ => false

/-- Scan for the `<html` tag anywhere in the text. -/
def scanHtmlTag : List Char → Bool
  | [] => false
  | c :: rest => hasHtmlTagAt (c :: rest) || scanHtmlTag rest

/-- Translated from `isHtmlContent`: content-type mentions `text/html`, or
the body matches the case-insensitive `<html[\s>]` or `<!doctype html>`
patterns. -/
def isHtmlContent (html : String) (contentType : Option String) : Bool :=
  (match contentType with
   | some ct => containsChars "text/html".data (lowerChars ct.data)
   | none => false)
  || scanHtmlTag (lowerChars html.data)
  || containsChars "<!doctype html>".data (lowerChars html.data)

/-- JS prefix of a string: `content.slice(0, n)`. -/
def strTake (s : String) (n : Nat) : String :=
  ⟨s.data.take n⟩

/-- The truncation step of `processSingleUrl` (lines 406–410 of the source):
content over the ceiling becomes its prefix plus a notice carrying the
omitted-character count. -/
def truncateContent (content : String) (maxLength : Nat) : String :=
  if maxLength < content.length then
    strTake content maxLength ++ "\n\n[... Content truncated. " ++
      natRepr (content.length - maxLength) ++ " characters remaining ...]"
  else content

/-- ECMAScript `ToInt32` (the `|0` coercion): wrap into `[-2^31, 2^31)`. -/
def toInt32 (n : Int) : Int :=
  (n + 2 ^ 31) % 2 ^ 32 - 2 ^ 31

/-- One step of the rolling hash: `hash = (hash << 5) - hash + chr; hash |= 0`. -/
def hashStep (hash : Int) (chr : Nat) : Int :=
  toInt32 (toInt32 (hash * 32) - hash + chr)

/-- Hexadecimal digits of `n`, most significant first, with structural fuel. -/
def hexDigits : Nat → Nat → List Char
  | 0, _ => []
  | fuel + 1, n =>
    if n < 16 then [if n < 10 then Char.ofNat (48 + n) else Char.ofNat (87 + n)]
    else hexDigits fuel (n / 16) ++ [if n % 16 < 10 then Char.ofNat (48 + n % 16) else Char.ofNat (87 + n % 16)]

/-- Translated from `generateContentHash`: 32-bit rolling hash over the code
units, absolute value, hex-rendered, first 8 characters. -/
def generateContentHash (content : String) : String :=
  let h := (content.data.foldl (fun acc c => hashStep acc c.toNat) 0).natAbs
  ⟨(hexDigits (h + 1) h).take 8⟩

/-- Translated from `generateFrontmatter`; `description` and `cached` are
included only when truthy. -/
def generateFrontmatter (url title : String) (description : Option String)
    (fetched : String) (cached : Bool) : String :=
  let descPart :=
    match description with
    | some d => if d = "" then "" else "\ndescription: " ++ d
    | none => ""
  "---\nurl: " ++ url ++ "\ntitle: " ++ title ++ descPart ++
    "\nfetched: " ++ fetched ++ (if cached then "\ncached: true" else "") ++ "\n---\n"

/-- Model of `path.join` for one separator (node additionally normalizes
`./` prefixes; paths stay consistent within the model, which is all the
claims need). -/
def pathJoin (a b : String) : String :=
  a ++ "/" ++ b

/-! ## Single-URL pipeline — `processSingleUrl` -/

/-- The per-URL outcome record.  The failure branch of the source populates
only `success`, `message` and `url`; the remaining fields are then absent
(`none`). -/
structure PResult where
  success : Bool
  message : String
  title : Option String := none
  contentPath : Option String := none
  fromCache : Option Bool := none
  imageCount : Option Nat := none
  url : String
  deriving Repr, DecidableEq

/-- Translated from `fetchImage`: validate, GET with the default status
window and the image byte ceiling; every failure is swallowed into `none`. -/
def fetchImage (env : Env) (url : String) : Option String × List Ev :=
  match validateUrlSafety env url with
  | (.error _, evs) => (none, evs)
  | (.ok (), evs) =>
    match axiosGet env.net statusImage url with
    | .error _ => (none, evs ++ [.netGet url])
    | .ok res =>
      if MAX_IMAGE_BYTES < res.body.length then (none, evs ++ [.netGet url])
      else (some res.body, evs ++ [.netGet url])

/-- The image task list of `processSingleUrl` (sequentialized; the claims do
not depend on interleaving).  A `fetchImage` miss yields `none` for that
image; a sharp failure rejects the whole `Promise.all`. -/
def imageTasks (env : Env) : List ImageInfo → Except String (List (Option ImageInfo)) × List Ev
  | [] => (.ok [], [])
  | img :: rest =>
    let step := fetchImage env img.src
    match step.1 with
    | none =>
      let out := imageTasks env rest
      (out.1.map (fun l => none :: l), step.2 ++ out.2)
    | some d =>
      match env.sharpProc d with
      | none => (.error "Image processing failed", step.2)
      | some processed =>
        let out := imageTasks env rest
        (out.1.map (fun l => some { img with data := some processed } :: l), step.2 ++ out.2)

/-- The image harvesting step: skipped unless requested and images exist;
otherwise runs the tasks and keeps the successfully processed subset. -/
def imagesStep (env : Env) (images : Bool) (ex : ExtractedContent) :
    Except String (Nat × List ImageInfo) × List Ev :=
  if images && !ex.images.isEmpty then
    match imageTasks env ex.images with
    | (.error e, evs) => (.error e, evs)
    | (.ok results, evs) =>
      let filtered := (results.filterMap id).filter fun img => img.data.isSome
      (.ok (filtered.length, filtered), evs)
  else (.ok (0, ex.images), [])

/-- Translated from `writeMarkdownWithFrontmatter`: prefix the frontmatter
and write the file. -/
def writeMarkdownWithFrontmatter (st : St) (outputPath content : String)
    (url title : String) (description : Option String) (fetched : String) :
    St × List Ev :=
  let fm := generateFrontmatter url title description fetched false
  ({ st with files := updateA st.files outputPath (fm ++ content) }, [.fsWrite outputPath])

/-- The image-writing loop (`{i}_{filename}` inside `{dir}/images`). -/
def writeImagesFrom (st : St) (imagesDir : String) : Nat → List ImageInfo → St × List Ev
  | _, [] => (st, [])
  | i, img :: rest =>
    match img.data with
    | none => writeImagesFrom st imagesDir (i + 1) rest
    | some d =>
      let p := pathJoin imagesDir (natRepr i ++ "_" ++ img.filename.getD "image.jpg")
      let out := writeImagesFrom { st with files := updateA st.files p d } imagesDir (i + 1) rest
      (out.1, .fsWrite p :: out.2)

/-- The fetch-and-persist part of `processSingleUrl` (everything after the
cache lookup): robots check (whose failures are swallowed), bounded fetch,
content-type classification, extraction, truncation, image harvesting,
persist, manifest store.  Any error is caught at this boundary and becomes a
failure record. -/
def fetchPath (env : Env) (url : String) (images : Bool) (maxLength : Nat)
    (contentDir : String) (st : St) : PResult × St × List Ev :=
  let evR := checkRobotsTxt env url
  match fetchWithLimits env url with
  | (.error e, evF) =>
    ({ success := false, message := e, url := url }, st, evR ++ evF)
  | (.ok fr, evF) =>
    if isHtmlContent fr.html fr.contentType = false then
      ({ success := true,
         message := "Content type " ++ fr.contentType.getD "unknown" ++
           " cannot be converted to markdown.\n\nRaw content:\n" ++ strTake fr.html maxLength,
         title := some "", contentPath := some "", fromCache := some false,
         imageCount := some 0, url := url }, st, evR ++ evF)
    else
      let extracted := env.extract fr.html fr.finalUrl
      let content := truncateContent extracted.markdown maxLength
      match imagesStep env images extracted with
      | (.error e, evI) =>
        ({ success := false, message := e, url := url }, st, evR ++ evF ++ evI)
      | (.ok (imageCount, imgs), evI) =>
        let dirname := sanitizeDirname env.parse env.nowMs (extracted.title.getD "") url
        let dirPath := pathJoin contentDir dirname
        let contentPath := pathJoin dirPath "CONTENT.md"
        let w := writeMarkdownWithFrontmatter st contentPath content url
          (jsOrStr (extracted.title.getD "") "Untitled") extracted.description env.nowISO
        let w2 := if 0 < imageCount then writeImagesFrom w.1 (pathJoin dirPath "images") 0 imgs
          else (w.1, [])
        let entry : CacheEntry :=
          { directory := dirname, title := jsOrStr (extracted.title.getD "") "Untitled",
            fetched := env.nowISO, contentPath := dirPath,
            contentHash := generateContentHash content,
            imageCount := imageCount, charCount := content.length }
        let st3 := { w2.1 with manifest := updateA w2.1.manifest url entry }
        ({ success := true, message := content,
           title := some (jsOrStr (extracted.title.getD "") "Untitled"),
           contentPath := some dirPath, fromCache := some false,
           imageCount := some imageCount, url := url },
         st3, evR ++ evF ++ evI ++ w.2 ++ w2.2 ++ [.manifestWrite])

/-- Translated from `processSingleUrl`: load the manifest, serve from cache
when allowed and the backing `CONTENT.md` still reads, else run the fetch
path. -/
def processSingleUrl (env : Env) (url : String) (images refresh : Bool)
    (maxLength : Nat) (contentDir : String) (st : St) : PResult × St × List Ev :=
  let evLoad : List Ev := [.fsRead (pathJoin contentDir "manifest.json")]
  match refresh with
  | false =>
    match lookupA st.manifest url with
    | some cached =>
      let p := pathJoin cached.contentPath "CONTENT.md"
      match lookupA st.files p with
      | some content =>
        ({ success := true, message := content, title := some cached.title,
           contentPath := some cached.contentPath, fromCache := some true,
           imageCount := some cached.imageCount, url := url },
         st, evLoad ++ [.fsRead p])
      | none =>
        let out := fetchPath env url images maxLength contentDir st
        (out.1, out.2.1, evLoad ++ [.fsRead p] ++ out.2.2)
    | none =>
      let out := fetchPath env url images maxLength contentDir st
      (out.1, out.2.1, evLoad ++ out.2.2)
  | true =>
    let out := fetchPath env url images maxLength contentDir st
    (out.1, out.2.1, evLoad ++ out.2.2)

/-! ## Batch orchestration — `fetchSite` -/

/-- The `url` parameter: a single string or a list. -/
inductive UrlParam where
  | one (u : String)
  | many (us : List String)

/-- `Array.isArray(params.url) ? params.url : [params.url]`. -/
def urlsOf : UrlParam → List String
  | .one u => [u]
  | .many us => us

/-- `Array.prototype.join(sep)`. -/
def joinSep (sep : String) : List String → String
  | [] => ""
  | [x] => x
  | x :: y :: rest => x ++ sep ++ joinSep sep (y :: rest)

/-- The single-URL response assembly of `fetchSite`. -/
def singleReport (r : PResult) : String :=
  if r.success = false then "Error fetching " ++ r.url ++ ":\n\n" ++ r.message
  else
    joinSep "\n"
      (["# " ++ r.title.getD "", "", r.message, "", "---"]
        ++ (match r.contentPath with
            | some p => if p = "" then [] else ["📁 Saved to: " ++ p]
            | none => [])
        ++ (if r.fromCache = some true then
              ["⚡ Served from cache (use refresh=true to re-fetch)"] else [])
        ++ (match r.imageCount with
            | some n => if 0 < n then ["🖼️ " ++ natRepr n ++ " images saved"] else []
            | none => []))

/-- The per-result lines of the batch report (`i` is the zero-based index). -/
def batchLinesFrom : Nat → List PResult → List String
  | _, [] => []
  | i, r :: rest =>
    (if r.success then
      natRepr (i + 1) ++ ". ✓ **" ++ r.title.getD "" ++ "** → `" ++
        r.contentPath.getD "" ++ "`" ++ (if r.fromCache = some true then " (cached)" else "")
    else
      natRepr (i + 1) ++ ". ✗ " ++ r.url ++ ": " ++ r.message) :: batchLinesFrom (i + 1) rest

/-- One line per result, in order. -/
def batchLines (results : List PResult) : List String :=
  batchLinesFrom 0 results

/-- The batch summary assembly of `fetchSite`. -/
def batchReport (urls : List String) (results : List PResult) : String :=
  let successful := results.filter fun r => r.success
  let failed := results.filter fun r => !r.success
  let totalImages := successful.foldl (fun sum r => sum + r.imageCount.getD 0) 0
  joinSep "\n"
    (["## Batch Fetch Complete\n\n",
      "**Total:** " ++ natRepr urls.length ++ " URLs",
      "**Successful:** " ++ natRepr successful.length]
      ++ (if failed.length ≠ 0 then ["**Failed:** " ++ natRepr failed.length] else [])
      ++ ["\n### Results:\n\n"]
      ++ batchLines results
      ++ (if 0 < totalImages then ["", "**Total images:** " ++ natRepr totalImages] else []))

/-- The per-URL results of a batch.  Each concurrently dispatched pipeline
loads the manifest as it starts, so each runs against the initial state. -/
def batchResults (env : Env) (urls : List String) (images refresh : Bool) (st : St) :
    List PResult :=
  urls.map fun u => (processSingleUrl env u images refresh CHARACTER_LIMIT DEFAULT_CONTENT_DIR st).1

/-- Translated from `fetchSite`: reject oversized batches before any other
work, run a single URL's pipeline directly, or dispatch all pipelines and
aggregate. -/
def fetchSite (env : Env) (p : UrlParam) (images refresh : Bool) (st : St) :
    String × List Ev :=
  let urls := urlsOf p
  if 10 < urls.length then
    ("Error: Maximum 10 URLs per batch.\n\nYou provided " ++ natRepr urls.length ++
      " URLs. Please split into smaller batches.", [])
  else if urls.length = 1 then
    let out := processSingleUrl env (urls.headD "") images refresh CHARACTER_LIMIT
      DEFAULT_CONTENT_DIR st
    (singleReport out.1, out.2.2)
  else
    (batchReport urls (batchResults env urls images refresh st),
     (urls.map fun u =>
       (processSingleUrl env u images refresh CHARACTER_LIMIT DEFAULT_CONTENT_DIR st).2.2).flatten)

/-- The explicit outcome of a fresh, successful HTML fetch without image
harvesting, spelled out for the run lemmas (the event list keeps the exact
associativity produced by `fetchPath` so the equation holds by reduction). -/
def htmlRunOutcome (env : Env) (url : String) (maxLength : Nat)
    (contentDir : String) (st : St) (fr : FetchOk) (evF : List Ev) :
    PResult × St × List Ev :=
  let ex := env.extract fr.html fr.finalUrl
  let content := truncateContent ex.markdown maxLength
  let t := jsOrStr (ex.title.getD "") "Untitled"
  let dirname := sanitizeDirname env.parse env.nowMs (ex.title.getD "") url
  let dirPath := pathJoin contentDir dirname
  let cp := pathJoin dirPath "CONTENT.md"
  let fm := generateFrontmatter url t ex.description env.nowISO false
  ({ success := true, message := content, title := some t,
     contentPath := some dirPath, fromCache := some false,
     imageCount := some 0, url := url },
   { files := updateA st.files cp (fm ++ content),
     manifest := updateA st.manifest url
       { directory := dirname, title := t, fetched := env.nowISO,
         contentPath := dirPath, contentHash := generateContentHash content,
         imageCount := 0, charCount := content.length } },
   checkRobotsTxt env url ++ evF ++ ([] : List Ev) ++ [Ev.fsWrite cp] ++
     ([] : List Ev) ++ [Ev.manifestWrite])

/-! ## Concrete environments for witnesses and counterexamples -/

/-- The empty initial state. -/
def st0 : St := {}

/-- An inert environment: nothing parses, resolves or responds. -/
def envTriv : Env where
  parse := fun _ => none
  dns := fun _ => none
  net := fun _ => none
  extract := fun _ _ => { markdown := "" }
  sharpProc := fun _ => none
  resolveRel := fun _ _ => none
  nowISO := ""
  nowMs := 0

/-- A robots.txt body whose wildcard record disallows everything. -/
def robotsBodyC1 : String := "User-agent: *\nDisallow: /"

/-- A host `h` that serves the disallow-all robots.txt and an HTML page. -/
def envC1 : Env where
  parse := fun s =>
    if s = "http://h/" then some ⟨"http:", "h", "http://h", "/"⟩ else none
  dns := fun h => if h = "h" then some ["93.184.216.34"] else none
  net := fun u =>
    if u = "http://h/robots.txt" then
      some { status := 200, body := robotsBodyC1, contentType := some "text/plain" }
    else if u = "http://h/" then
      some { status := 200, body := "<html><body>hi</body></html>",
             contentType := some "text/html" }
    else none
  extract := fun _ _ => { markdown := "hi", title := some "T" }
  sharpProc := fun _ => none
  resolveRel := fun l _ => some l
  nowISO := "2024-01-01T00:00:00.000Z"
  nowMs := 1704067200000

/-- A host `e` whose pages `/0 → /1 → /2 → /3 → /4` form a redirect chain of
four hops; `/4` would answer 200 but is never requested. -/
def envC2 : Env where
  parse := fun s =>
    if s = "http://e/0" ∨ s = "http://e/1" ∨ s = "http://e/2" ∨ s = "http://e/3" ∨
        s = "http://e/4" then
      some ⟨"http:", "e", "http://e", "/"⟩
    else none
  dns := fun h => if h = "e" then some ["93.184.216.34"] else none
  net := fun u =>
    if u = "http://e/0" then
      some { status := 301, body := "r0", contentType := some "text/html",
             location := some "http://e/1" }
    else if u = "http://e/1" then
      some { status := 301, body := "r1", contentType := some "text/html",
             location := some "http://e/2" }
    else if u = "http://e/2" then
      some { status := 301, body := "r2", contentType := some "text/html",
             location := some "http://e/3" }
    else if u = "http://e/3" then
      some { status := 301, body := "r3", contentType := some "text/html",
             location := some "http://e/4" }
    else if u = "http://e/4" then
      some { status := 200, body := "final", contentType := some "text/html" }
    else none
  extract := fun h _ => { markdown := h }
  sharpProc := fun _ => none
  resolveRel := fun l _ => some l
  nowISO := ""
  nowMs := 0

/-- A host `site.example` resolving to the given addresses, with the SSRF
guard optionally disabled. -/
def envC3 (addrs : List String) (disable : Bool) : Env where
  parse := fun s =>
    if s = "http://site.example/" then
      some ⟨"http:", "site.example", "http://site.example", "/"⟩
    else none
  dns := fun h => if h = "site.example" then some addrs else none
  net := fun _ => none
  extract := fun _ _ => { markdown := "" }
  sharpProc := fun _ => none
  resolveRel := fun l _ => some l
  nowISO := ""
  nowMs := 0
  disableGuard := disable

/-- A host `e` without robots.txt serving one small HTML page that extracts
to the markdown `"Hello"`. -/
def envC4 : Env where
  parse := fun s =>
    if s = "http://e/" then some ⟨"http:", "e", "http://e", "/"⟩ else none
  dns := fun h => if h = "e" then some ["93.184.216.34"] else none
  net := fun u =>
    if u = "http://e/" then
      some { status := 200, body := "<html><body>Hello</body></html>",
             contentType := some "text/html" }
    else none
  extract := fun _ _ => { markdown := "Hello", title := some "T" }
  sharpProc := fun _ => none
  resolveRel := fun l _ => some l
  nowISO := "2024-01-01T00:00:00.000Z"
  nowMs := 0

/-- A host `e` serving a long extracted markdown (12 characters) so a small
ceiling forces truncation. -/
def envC7 : Env where
  parse := fun s =>
    if s = "http://e/" then some ⟨"http:", "e", "http://e", "/"⟩ else none
  dns := fun h => if h = "e" then some ["93.184.216.34"] else none
  net := fun u =>
    if u = "http://e/" then
      some { status := 200, body := "<html><body>Hello, World</body></html>",
             contentType := some "text/html" }
    else none
  extract := fun _ _ => { markdown := "Hello, World", title := some "T" }
  sharpProc := fun _ => none
  resolveRel := fun l _ => some l
  nowISO := "2024-01-01T00:00:00.000Z"
  nowMs := 0

/-- A host `e` answering with a plain-text body that is not HTML. -/
def envC9 : Env where
  parse := fun s =>
    if s = "http://e/" then some ⟨"http:", "e", "http://e", "/"⟩ else none
  dns := fun h => if h = "e" then some ["93.184.216.34"] else none
  net := fun u =>
    if u = "http://e/" then
      some { status := 200, body := "just some plain data",
             contentType := some "text/plain" }
    else none
  extract := fun _ _ => { markdown := "" }
  sharpProc := fun _ => none
  resolveRel := fun l _ => some l
  nowISO := ""
  nowMs := 0

/-- A manifest entry whose backing file will be absent. -/
def entryC8 : CacheEntry :=
  { directory := "d", title := "Cached title", fetched := "t0",
    contentPath := "./context/d", contentHash := "h", imageCount := 0, charCount := 5 }

/-- A state holding `entryC8` for URL `"u"` but no files at all. -/
def stC8 : St := { files := [], manifest := [("u", entryC8)] }

/-- Decidable equality for `Except`, used to evaluate concrete runs. -/
instance {ε α : Type} [DecidableEq ε] [DecidableEq α] : DecidableEq (Except ε α) := fun a b => by
  cases a with
  | error x =>
    cases b with
    | error y =>
      exact if h : x = y then isTrue (by rw [h]) else
        isFalse (by intro hc; injection hc with h2; exact h h2)
    | ok _ => exact isFalse (by intro hc; injection hc)
  | ok x =>
    cases b with
    | error _ => exact isFalse (by intro hc; injection hc)
    | ok y =>
      exact if h : x = y then isTrue (by rw [h]) else
        isFalse (by intro hc; injection hc with h2; exact h h2)

/-! ## Helper lemmas -/

/-- A digit character rendered by `natDigits` satisfies `Char.isDigit`. -/
theorem digitChar_isDigit (d : Nat) (h : d < 10) :
    (Char.ofNat (48 + d)).isDigit = true := by
  interval_cases d <;> decide

/-- Every character rendered by `natDigits` is a digit. -/
theorem natDigits_all_digit : ∀ (fuel n : Nat), (natDigits fuel n).all Char.isDigit = true := by
  intro fuel
  induction fuel with
  | zero => intro n; rfl
  | succ fuel ih =>
    intro n
    unfold natDigits
    by_cases h : n < 10
    · simp [h, digitChar_isDigit n h]
    · have hm : n % 10 < 10 := Nat.mod_lt _ (by norm_num)
      simp [h, List.all_append, ih (n / 10), digitChar_isDigit (n % 10) hm]

/-- A number below `10 ^ k` renders to at most `k` digits. -/
theorem natDigits_length_le :
    ∀ (fuel k n : Nat), n < 10 ^ k → 0 < k → (natDigits fuel n).length ≤ k := by
  intro fuel
  induction fuel with
  | zero => intro k n _ _; simp [natDigits]
  | succ fuel ih =>
    intro k n hn hk
    unfold natDigits
    by_cases h : n < 10
    · simpa [h] using hk
    · have hk2 : 2 ≤ k := by
        by_contra hlt
        push_neg at hlt
        have hk1 : k = 1 := by omega
        rw [hk1] at hn
        simp at hn
        omega
      have hpow : (10 : Nat) ^ k = 10 ^ (k - 1) * 10 := by
        conv_lhs => rw [show k = (k - 1) + 1 by omega]
        rw [pow_succ]
      have hdiv : n / 10 < 10 ^ (k - 1) :=
        (Nat.div_lt_iff_lt_mul (by norm_num)).mpr (by omega)
      have hrec := ih (k - 1) (n / 10) hdiv (by omega)
      simp only [h, if_false, List.length_append, List.length_singleton]
      omega

/-- A digit is in the slug character class. -/
theorem isAllowedC_of_isDigit (c : Char) (h : c.isDigit = true) : isAllowedC c = true := by
  simp [isAllowedC, h]

/-- Collapsing hyphen runs introduces no character that was not present. -/
theorem mem_collapseHyphens {c : Char} :
    ∀ (l : List Char) (b : Bool), c ∈ collapseHyphens b l → c ∈ l := by
  intro l
  induction l with
  | nil => intro b h; simp [collapseHyphens] at h
  | cons x rest ih =>
    intro b h
    unfold collapseHyphens at h
    split at h
    · rename_i hx
      split at h
      · exact List.mem_cons_of_mem _ (ih _ h)
      · rcases List.mem_cons.mp h with h1 | h2
        · rw [h1, ← hx]
          exact List.mem_cons_self _ _
        · exact List.mem_cons_of_mem _ (ih _ h2)
    · rcases List.mem_cons.mp h with h1 | h2
      · rw [h1]
        exact List.mem_cons_self _ _
      · exact List.mem_cons_of_mem _ (ih _ h2)

/-- Stripping edge hyphens keeps a sublist of the input. -/
theorem stripEdgeHyphens_sublist (l : List Char) : (stripEdgeHyphens l).Sublist l := by
  unfold stripEdgeHyphens
  have step : ∀ l1 : List Char, l1.Sublist l →
      (if l1.getLast? = some '-' then l1.dropLast else l1).Sublist l := by
    intro l1 hs
    split
    · exact (List.dropLast_sublist l1).trans hs
    · exact hs
  apply step
  split
  · exact List.sublist_cons_self _ _
  · exact List.Sublist.refl _

/-- Stripping edge hyphens introduces no character that was not present. -/
theorem mem_stripEdgeHyphens {c : Char} (l : List Char)
    (h : c ∈ stripEdgeHyphens l) : c ∈ l :=
  (stripEdgeHyphens_sublist l).subset h

/-- The slug sanitization chain yields a non-empty, at-most-100-character
string over `[a-z0-9-]` (for any realistic millisecond timestamp). -/
theorem sanitizeCore_spec (s : String) (nowMs : Nat) (hnow : nowMs < 10 ^ 16) :
    sanitizeCore s nowMs ≠ "" ∧ (sanitizeCore s nowMs).length ≤ 100 ∧
    (sanitizeCore s nowMs).data.all isAllowedC = true := by
  unfold sanitizeCore
  set d1 := wsToHyphen false (trimChars (lowerChars s.data)) with hd1
  set d2 := d1.filter isAllowedC with hd2
  set d3 := collapseHyphens false d2 with hd3
  set d4 := stripEdgeHyphens d3 with hd4
  set d5 := if d4.length > 100 then d4.take 100 else d4 with hd5
  have hall5 : ∀ c ∈ d5, isAllowedC c = true := by
    intro c hc
    have h4 : c ∈ d4 := by
      rw [hd5] at hc
      by_cases h : d4.length > 100
      · rw [if_pos h] at hc
        exact (List.take_sublist _ _).subset hc
      · rwa [if_neg h] at hc
    have h3 : c ∈ d3 := mem_stripEdgeHyphens _ h4
    have h2 : c ∈ d2 := mem_collapseHyphens _ _ h3
    exact List.of_mem_filter h2
  have hlen5 : d5.length ≤ 100 := by
    rw [hd5]
    by_cases h : d4.length > 100
    · rw [if_pos h, List.length_take]
      omega
    · rw [if_neg h]
      omega
  by_cases hemp : d5 = []
  · rw [if_pos hemp]
    have hfb : ("untitled-" ++ natRepr nowMs) =
        String.mk ("untitled-".data ++ natDigits (nowMs + 1) nowMs) := rfl
    rw [hfb]
    refine ⟨?_, ?_, ?_⟩
    · intro he
      have := congrArg String.data he
      simp at this
    · show ("untitled-".data ++ natDigits (nowMs + 1) nowMs).length ≤ 100
      rw [List.length_append]
      have := natDigits_length_le (nowMs + 1) 16 nowMs hnow (by norm_num)
      have h9 : ("untitled-".data).length = 9 := by decide
      omega
    · show ("untitled-".data ++ natDigits (nowMs + 1) nowMs).all isAllowedC = true
      have h1 : "untitled-".data.all isAllowedC = true := by decide
      have h2 : (natDigits (nowMs + 1) nowMs).all isAllowedC = true := by
        have hd := natDigits_all_digit (nowMs + 1) nowMs
        rw [List.all_eq_true] at hd ⊢
        intro c hc
        exact isAllowedC_of_isDigit c (hd c hc)
      rw [List.all_append, h1, h2]
      rfl
  · rw [if_neg hemp]
    refine ⟨?_, ?_, ?_⟩
    · intro he
      apply hemp
      have := congrArg String.data he
      simpa using this
    · exact hlen5
    · show d5.all isAllowedC = true
      rw [List.all_eq_true]
      exact hall5

/-- Looking up the key just stored finds the stored value. -/
theorem lookupA_updateA_self {α : Type} (l : List (String × α)) (k : String) (v : α) :
    lookupA (updateA l k v) k = some v := by
  simp [updateA, lookupA]

/-- The batch report prints exactly one line per result. -/
theorem batchLinesFrom_length :
    ∀ (results : List PResult) (i : Nat), (batchLinesFrom i results).length = results.length := by
  intro results
  induction results with
  | nil => intro i; rfl
  | cons r rest ih => intro i; simp [batchLinesFrom, ih]

/-- A successful `fetchLoop` run performed at least one HTTP request. -/
theorem fetchLoop_ok_netGet (env : Env) (fuel : Nat) (cur : String)
    (resp : Option HttpResp) (x : HttpResp × String) (evs : List Ev)
    (hok : fetchLoop env (fuel + 1) cur resp = (.ok x, evs)) :
    evs.any (fun e => match e with | .netGet _ => true | _ => false) = true := by
  unfold fetchLoop at hok
  split at hok
  · simp at hok
  · split at hok
    · split at hok
      · simp at hok
      · split at hok
        · simp at hok
        · have hev := congrArg Prod.snd hok
          dsimp only at hev
          rw [← hev]
          simp
    · have hev := congrArg Prod.snd hok
      dsimp only at hev
      rw [← hev]
      simp

/-- A successful `fetchWithLimits` run performed at least one HTTP request. -/
theorem fetchWithLimits_ok_netGet (env : Env) (url : String) (fr : FetchOk)
    (evF : List Ev) (hok : fetchWithLimits env url = (.ok fr, evF)) :
    evF.any (fun e => match e with | .netGet _ => true | _ => false) = true := by
  unfold fetchWithLimits at hok
  rcases hval : validateUrlSafety env url with ⟨vr, vevs⟩
  rw [hval] at hok
  rcases vr with e | u
  · simp at hok
  · simp only at hok
    rcases hloop : fetchLoop env (MAX_REDIRECTS + 1) url none with ⟨lr, levs⟩
    rw [hloop] at hok
    rcases lr with e | p
    · simp at hok
    · simp only at hok
      by_cases hbig : MAX_HTML_BYTES < p.1.body.length
      · rw [if_pos hbig] at hok
        simp at hok
      · rw [if_neg hbig] at hok
        have hev : evF = vevs ++ levs := by
          have := congrArg Prod.snd hok
          simpa using this.symm
        have hl : levs.any (fun e => match e with | .netGet _ => true | _ => false) = true := by
          have h4 : MAX_REDIRECTS + 1 = 3 + 1 := rfl
          rw [h4] at hloop
          exact fetchLoop_ok_netGet env 3 url none p levs (by rw [hloop])
        rw [hev, List.any_append, hl]
        simp

/-- The fetch path never reports a cache hit. -/
theorem fetchPath_not_fromCache (env : Env) (url : String) (images : Bool)
    (maxLength : Nat) (contentDir : String) (st : St) :
    (fetchPath env url images maxLength contentDir st).1.fromCache ≠ some true := by
  unfold fetchPath
  rcases hf : fetchWithLimits env url with ⟨fr, evF⟩
  rcases fr with e | ok
  · simp
  · simp only
    by_cases hh : isHtmlContent ok.html ok.contentType = false
    · rw [if_pos hh]
      simp
    · rw [if_neg hh]
      rcases hi : imagesStep env images (env.extract ok.html ok.finalUrl) with ⟨ir, evI⟩
      rcases ir with e | p
      · simp
      · simp

/-! ## Claims -/

/-- C1: the source detects a wildcard `Disallow: /` record (the parser sets
`disallowAll` and the core would throw `RobotsDisallowed`), but the throw
happens inside `checkRobotsTxt`'s own try block and the trailing catch
swallows it, so the single-URL pipeline proceeds to fetch the page and
succeeds instead of failing.  The second half of the claim (a failed robots
fetch imposes no restriction) holds by the same catch. -/
theorem robots_disallow_is_swallowed :
    robotsDisallowAll robotsBodyC1 = true ∧
    (checkRobotsTxtCore envC1 "http://h/").1 =
      Except.error "Access disallowed by robots.txt for autonomous agents (Disallow: /)" ∧
    (processSingleUrl envC1 "http://h/" false false CHARACTER_LIMIT
      DEFAULT_CONTENT_DIR st0).1.success = true ∧
    Ev.netGet "http://h/" ∈
      (processSingleUrl envC1 "http://h/" false false CHARACTER_LIMIT
        DEFAULT_CONTENT_DIR st0).2.2 := by
  refine ⟨by decide, by decide, by decide, by decide⟩

/-- C2: on a four-hop redirect chain with the default maximum of three, the
loop exits with the last 3xx response still in hand and the source then
returns that redirect response's body as a success — it does not fail; the
fifth URL is never requested (though it was validated).  Each followed
redirect target was validated (one DNS-lookup event per hop). -/
theorem redirect_chain_over_max_stops_silently :
    (fetchWithLimits envC2 "http://e/0").1 =
      Except.ok { html := "r3", contentType := some "text/html", finalUrl := "http://e/4" } ∧
    (fetchWithLimits envC2 "http://e/0").2 =
      [Ev.dnsLookup "e", Ev.netGet "http://e/0", Ev.dnsLookup "e", Ev.netGet "http://e/1",
       Ev.dnsLookup "e", Ev.netGet "http://e/2", Ev.dnsLookup "e", Ev.netGet "http://e/3",
       Ev.dnsLookup "e"] ∧
    Ev.netGet "http://e/4" ∉ (fetchWithLimits envC2 "http://e/0").2 := by
  refine ⟨by decide, by decide, by decide⟩

/-- C3: the validator accepts public IPv4 resolutions, rejects each private
IPv4 range with the SSRF message, and accepts everything when the disable
flag is set — but a hostname resolving to the IPv6 loopback `::1` passes,
because `isPrivateIP` only parses dotted-quad IPv4 (the claim's IPv6-loopback
case fails on the code). -/
theorem ssrf_guard_misses_ipv6_loopback :
    (validateUrlSafety (envC3 ["93.184.216.34"] false) "http://site.example/").1 =
      Except.ok () ∧
    (validateUrlSafety (envC3 ["10.1.2.3"] false) "http://site.example/").1 =
      Except.error "Access to private IP 10.1.2.3 is blocked by SSRF guard" ∧
    (validateUrlSafety (envC3 ["172.16.0.1"] false) "http://site.example/").1 =
      Except.error "Access to private IP 172.16.0.1 is blocked by SSRF guard" ∧
    (validateUrlSafety (envC3 ["192.168.0.9"] false) "http://site.example/").1 =
      Except.error "Access to private IP 192.168.0.9 is blocked by SSRF guard" ∧
    (validateUrlSafety (envC3 ["127.0.0.2"] false) "http://site.example/").1 =
      Except.error "Access to private IP 127.0.0.2 is blocked by SSRF guard" ∧
    (validateUrlSafety (envC3 ["169.254.7.7"] false) "http://site.example/").1 =
      Except.error "Access to private IP 169.254.7.7 is blocked by SSRF guard" ∧
    isPrivateIP "::1" = false ∧
    (validateUrlSafety (envC3 ["::1"] false) "http://site.example/").1 = Except.ok () ∧
    (validateUrlSafety (envC3 ["::1"] true) "not a url").1 = Except.ok () := by
  refine ⟨by decide, by decide, by decide, by decide, by decide, by decide, by decide,
    by decide, by decide⟩

/-- C6: a batch of more than ten URLs is rejected with the explicit error
message and produces no effect at all — no cache read, no DNS lookup, no
network request. -/
theorem batch_over_ten_rejected_before_any_work (env : Env) (images refresh : Bool)
    (st : St) (urls : List String) (h : 10 < urls.length) :
    fetchSite env (.many urls) images refresh st =
      ("Error: Maximum 10 URLs per batch.\n\nYou provided " ++ natRepr urls.length ++
        " URLs. Please split into smaller batches.", []) := by
  unfold fetchSite urlsOf
  rw [if_pos h]

/-- C6 witness: an 11-URL batch is rejected. -/
theorem batch_over_ten_rejected_before_any_work_witness :
    10 < (["u1", "u2", "u3", "u4", "u5", "u6", "u7", "u8", "u9", "u10", "u11"] : List String).length ∧
    fetchSite envTriv
      (.many ["u1", "u2", "u3", "u4", "u5", "u6", "u7", "u8", "u9", "u10", "u11"])
      false false st0 =
      ("Error: Maximum 10 URLs per batch.\n\nYou provided " ++
        natRepr (["u1", "u2", "u3", "u4", "u5", "u6", "u7", "u8", "u9", "u10", "u11"] : List String).length ++
        " URLs. Please split into smaller batches.", []) :=
  ⟨by decide, batch_over_ten_rejected_before_any_work envTriv false false st0 _ (by decide)⟩

/-- C5: for a 2–10 URL batch, the report has one line per URL, the success
and failure counts sum to the batch size, and each entry of the result list
is exactly the outcome of that URL's own pipeline run (so one URL's failure
is a failure record in its slot and cannot abort or perturb the others). -/
theorem batch_failures_isolated_and_counted (env : Env) (images refresh : Bool)
    (st : St) (urls : List String) (h2 : 2 ≤ urls.length) (h10 : urls.length ≤ 10) :
    (batchLines (batchResults env urls images refresh st)).length = urls.length ∧
    ((batchResults env urls images refresh st).filter (fun r => r.success)).length +
      ((batchResults env urls images refresh st).filter (fun r => !r.success)).length =
      urls.length ∧
    (∀ i : Nat, (batchResults env urls images refresh st)[i]? =
      urls[i]?.map (fun u =>
        (processSingleUrl env u images refresh CHARACTER_LIMIT DEFAULT_CONTENT_DIR st).1)) ∧
    (fetchSite env (.many urls) images refresh st).1 =
      batchReport urls (batchResults env urls images refresh st) := by
  refine ⟨?_, ?_, ?_, ?_⟩
  · rw [batchLines, batchLinesFrom_length, batchResults, List.length_map]
  · have hb : (batchResults env urls images refresh st).length = urls.length := by
      rw [batchResults, List.length_map]
    have hsplit := List.length_eq_length_filter_add
      (l := batchResults env urls images refresh st) (fun r => r.success)
    rw [← hb]
    exact hsplit.symm
  · intro i
    rw [batchResults, List.getElem?_map]
  · dsimp only [fetchSite, urlsOf]
    rw [if_neg (by omega), if_neg (by omega)]

/-- C5 witness: a 2-URL batch in the inert environment (both fail). -/
theorem batch_failures_isolated_and_counted_witness :
    2 ≤ (["a", "b"] : List String).length ∧ (["a", "b"] : List String).length ≤ 10 ∧
    ((batchLines (batchResults envTriv ["a", "b"] false false st0)).length = 2 ∧
      ((batchResults envTriv ["a", "b"] false false st0).filter (fun r => r.success)).length +
        ((batchResults envTriv ["a", "b"] false false st0).filter (fun r => !r.success)).length = 2 ∧
      (∀ i : Nat, (batchResults envTriv ["a", "b"] false false st0)[i]? =
        (["a", "b"] : List String)[i]?.map (fun u =>
          (processSingleUrl envTriv u false false CHARACTER_LIMIT DEFAULT_CONTENT_DIR st0).1)) ∧
      (fetchSite envTriv (.many ["a", "b"]) false false st0).1 =
        batchReport ["a", "b"] (batchResults envTriv ["a", "b"] false false st0)) :=
  ⟨by decide, by decide,
    batch_failures_isolated_and_counted envTriv false false st0 ["a", "b"] (by decide) (by decide)⟩

/-- C10: for every title, URL, URL-parser behavior and realistic clock value,
`sanitizeDirname` returns a non-empty name of at most 100 characters drawn
from lowercase letters, digits and hyphens. -/
theorem sanitize_dirname_filesystem_safe (parse : String → Option URLRec)
    (nowMs : Nat) (title url : String) (hnow : nowMs < 10 ^ 16) :
    sanitizeDirname parse nowMs title url ≠ "" ∧
    (sanitizeDirname parse nowMs title url).length ≤ 100 ∧
    (sanitizeDirname parse nowMs title url).data.all isAllowedC = true := by
  unfold sanitizeDirname
  exact sanitizeCore_spec _ _ hnow

/-- C10 witness: a concrete messy title sanitizes to a safe slug. -/
theorem sanitize_dirname_filesystem_safe_witness :
    (3 : Nat) < 10 ^ 16 ∧
    (sanitizeDirname (fun _ => none) 3 "  My Page: Q&A!  " "u" ≠ "" ∧
      (sanitizeDirname (fun _ => none) 3 "  My Page: Q&A!  " "u").length ≤ 100 ∧
      (sanitizeDirname (fun _ => none) 3 "  My Page: Q&A!  " "u").data.all isAllowedC = true) :=
  ⟨by norm_num, sanitize_dirname_filesystem_safe (fun _ => none) 3 "  My Page: Q&A!  " "u" (by norm_num)⟩

/-- A fresh successful HTML fetch without image harvesting runs to the
explicit persisted outcome. -/
theorem fetchPath_html_run (env : Env) (url : String) (maxLength : Nat)
    (contentDir : String) (st : St) (fr : FetchOk) (evF : List Ev)
    (hfetch : fetchWithLimits env url = (.ok fr, evF))
    (hhtml : isHtmlContent fr.html fr.contentType = true) :
    fetchPath env url false maxLength contentDir st =
      htmlRunOutcome env url maxLength contentDir st fr evF := by
  unfold fetchPath
  rw [hfetch]
  dsimp only
  rw [hhtml, if_neg (by simp)]
  rfl

/-- A successful fetch classified as non-HTML yields the raw-body note and
leaves the state untouched. -/
theorem fetchPath_nonhtml_run (env : Env) (url : String) (images : Bool)
    (maxLength : Nat) (contentDir : String) (st : St) (fr : FetchOk) (evF : List Ev)
    (hfetch : fetchWithLimits env url = (.ok fr, evF))
    (hnot : isHtmlContent fr.html fr.contentType = false) :
    fetchPath env url images maxLength contentDir st =
      ({ success := true,
         message := "Content type " ++ fr.contentType.getD "unknown" ++
           " cannot be converted to markdown.\n\nRaw content:\n" ++ strTake fr.html maxLength,
         title := some "", contentPath := some "", fromCache := some false,
         imageCount := some 0, url := url }, st,
       checkRobotsTxt env url ++ evF) := by
  unfold fetchPath
  rw [hfetch]
  dsimp only
  rw [hnot, if_pos rfl]

/-- Without refresh, a manifest miss goes straight to the fetch path. -/
theorem processSingleUrl_miss (env : Env) (url : String) (images : Bool)
    (maxLength : Nat) (contentDir : String) (st : St)
    (hmiss : lookupA st.manifest url = none) :
    processSingleUrl env url images false maxLength contentDir st =
      ((fetchPath env url images maxLength contentDir st).1,
       (fetchPath env url images maxLength contentDir st).2.1,
       Ev.fsRead (pathJoin contentDir "manifest.json") ::
         (fetchPath env url images maxLength contentDir st).2.2) := by
  unfold processSingleUrl
  dsimp only
  rw [hmiss]
  rfl

/-- Without refresh, a manifest hit whose backing file reads successfully is
served from cache with no further work. -/
theorem processSingleUrl_hit (env : Env) (url : String) (images : Bool)
    (maxLength : Nat) (contentDir : String) (st : St) (cached : CacheEntry)
    (content : String)
    (hentry : lookupA st.manifest url = some cached)
    (hfile : lookupA st.files (pathJoin cached.contentPath "CONTENT.md") = some content) :
    processSingleUrl env url images false maxLength contentDir st =
      ({ success := true, message := content, title := some cached.title,
         contentPath := some cached.contentPath, fromCache := some true,
         imageCount := some cached.imageCount, url := url },
       st, [Ev.fsRead (pathJoin contentDir "manifest.json"),
            Ev.fsRead (pathJoin cached.contentPath "CONTENT.md")]) := by
  unfold processSingleUrl
  dsimp only
  rw [hentry]
  dsimp only
  rw [hfile]
  rfl

/-- Without refresh, a manifest hit whose backing file is missing falls back
to the fetch path. -/
theorem processSingleUrl_missFile (env : Env) (url : String) (images : Bool)
    (maxLength : Nat) (contentDir : String) (st : St) (cached : CacheEntry)
    (hentry : lookupA st.manifest url = some cached)
    (hfile : lookupA st.files (pathJoin cached.contentPath "CONTENT.md") = none) :
    processSingleUrl env url images false maxLength contentDir st =
      ((fetchPath env url images maxLength contentDir st).1,
       (fetchPath env url images maxLength contentDir st).2.1,
       Ev.fsRead (pathJoin contentDir "manifest.json") ::
         Ev.fsRead (pathJoin cached.contentPath "CONTENT.md") ::
         (fetchPath env url images maxLength contentDir st).2.2) := by
  unfold processSingleUrl
  dsimp only
  rw [hentry]
  dsimp only
  rw [hfile]
  rfl

/-- C7: when the pipeline reaches extraction, the returned content is the
extracted markdown truncated at the ceiling with a notice carrying the exact
omitted-character count, and content at or under the ceiling passes through
unmodified. -/
theorem truncation_with_omitted_count (env : Env) (url : String) (maxLength : Nat)
    (st : St) (fr : FetchOk) (evF : List Ev)
    (hmiss : lookupA st.manifest url = none)
    (hfetch : fetchWithLimits env url = (.ok fr, evF))
    (hhtml : isHtmlContent fr.html fr.contentType = true) :
    ((processSingleUrl env url false false maxLength DEFAULT_CONTENT_DIR st).1.message =
      (if maxLength < (env.extract fr.html fr.finalUrl).markdown.length then
        strTake (env.extract fr.html fr.finalUrl).markdown maxLength ++
          "\n\n[... Content truncated. " ++
          natRepr ((env.extract fr.html fr.finalUrl).markdown.length - maxLength) ++
          " characters remaining ...]"
       else (env.extract fr.html fr.finalUrl).markdown)) ∧
    ((env.extract fr.html fr.finalUrl).markdown.length ≤ maxLength →
      (processSingleUrl env url false false maxLength DEFAULT_CONTENT_DIR st).1.message =
        (env.extract fr.html fr.finalUrl).markdown) := by
  rw [processSingleUrl_miss env url false maxLength DEFAULT_CONTENT_DIR st hmiss,
    fetchPath_html_run env url maxLength DEFAULT_CONTENT_DIR st fr evF hfetch hhtml]
  constructor
  · rfl
  · intro hle
    show truncateContent (env.extract fr.html fr.finalUrl).markdown maxLength =
      (env.extract fr.html fr.finalUrl).markdown
    unfold truncateContent
    rw [if_neg (by omega)]

/-- C7 witness: with a ceiling of 5, the 12-character markdown is cut to its
first five characters plus the notice naming the 7 omitted characters. -/
theorem truncation_with_omitted_count_witness :
    lookupA st0.manifest "http://e/" = none ∧
    fetchWithLimits envC7 "http://e/" =
      (.ok { html := "<html><body>Hello, World</body></html>",
             contentType := some "text/html", finalUrl := "http://e/" },
       [Ev.dnsLookup "e", Ev.netGet "http://e/"]) ∧
    isHtmlContent "<html><body>Hello, World</body></html>" (some "text/html") = true ∧
    (((processSingleUrl envC7 "http://e/" false false 5 DEFAULT_CONTENT_DIR st0).1.message =
      (if 5 < (envC7.extract "<html><body>Hello, World</body></html>" "http://e/").markdown.length then
        strTake (envC7.extract "<html><body>Hello, World</body></html>" "http://e/").markdown 5 ++
          "\n\n[... Content truncated. " ++
          natRepr ((envC7.extract "<html><body>Hello, World</body></html>" "http://e/").markdown.length - 5) ++
          " characters remaining ...]"
       else (envC7.extract "<html><body>Hello, World</body></html>" "http://e/").markdown)) ∧
    ((envC7.extract "<html><body>Hello, World</body></html>" "http://e/").markdown.length ≤ 5 →
      (processSingleUrl envC7 "http://e/" false false 5 DEFAULT_CONTENT_DIR st0).1.message =
        (envC7.extract "<html><body>Hello, World</body></html>" "http://e/").markdown)) :=
  ⟨by decide, by decide, by decide,
    truncation_with_omitted_count envC7 "http://e/" 5 st0
      { html := "<html><body>Hello, World</body></html>",
        contentType := some "text/html", finalUrl := "http://e/" }
      [Ev.dnsLookup "e", Ev.netGet "http://e/"] (by decide) (by decide) (by decide)⟩

/-- C9: a response classified as non-HTML yields a success record holding the
note plus the ceiling-truncated raw body with empty title and path; nothing
is written and the manifest is untouched (the state is returned unchanged and
the trace holds no write events), so a repeat request performs the identical
run — including the network fetch the first run performed (the trace of a
successful fetch always contains a request event). -/
theorem non_html_note_without_persistence (env : Env) (url : String) (images : Bool)
    (maxLength : Nat) (st : St) (fr : FetchOk) (evF : List Ev)
    (hmiss : lookupA st.manifest url = none)
    (hfetch : fetchWithLimits env url = (.ok fr, evF))
    (hnot : isHtmlContent fr.html fr.contentType = false) :
    (processSingleUrl env url images false maxLength DEFAULT_CONTENT_DIR st =
      ({ success := true,
         message := "Content type " ++ fr.contentType.getD "unknown" ++
           " cannot be converted to markdown.\n\nRaw content:\n" ++ strTake fr.html maxLength,
         title := some "", contentPath := some "", fromCache := some false,
         imageCount := some 0, url := url },
       st,
       Ev.fsRead (pathJoin DEFAULT_CONTENT_DIR "manifest.json") ::
         (checkRobotsTxt env url ++ evF))) ∧
    (processSingleUrl env url images false maxLength DEFAULT_CONTENT_DIR
        (processSingleUrl env url images false maxLength DEFAULT_CONTENT_DIR st).2.1 =
      processSingleUrl env url images false maxLength DEFAULT_CONTENT_DIR st) ∧
    evF.any (fun e => match e with | .netGet _ => true | _ => false) = true := by
  have h1 := processSingleUrl_miss env url images maxLength DEFAULT_CONTENT_DIR st hmiss
  have h2 := fetchPath_nonhtml_run env url images maxLength DEFAULT_CONTENT_DIR st fr evF
    hfetch hnot
  have hmain : processSingleUrl env url images false maxLength DEFAULT_CONTENT_DIR st =
      ({ success := true,
         message := "Content type " ++ fr.contentType.getD "unknown" ++
           " cannot be converted to markdown.\n\nRaw content:\n" ++ strTake fr.html maxLength,
         title := some "", contentPath := some "", fromCache := some false,
         imageCount := some 0, url := url },
       st,
       Ev.fsRead (pathJoin DEFAULT_CONTENT_DIR "manifest.json") ::
         (checkRobotsTxt env url ++ evF)) := by
    rw [h1, h2]
  refine ⟨hmain, ?_, fetchWithLimits_ok_netGet env url fr evF hfetch⟩
  rw [hmain]
  exact hmain

/-- C9 witness: a `text/plain` body is passed through as a note, the state is
unchanged, and the repeat call is identical. -/
theorem non_html_note_without_persistence_witness :
    lookupA st0.manifest "http://e/" = none ∧
    fetchWithLimits envC9 "http://e/" =
      (.ok { html := "just some plain data", contentType := some "text/plain",
             finalUrl := "http://e/" },
       [Ev.dnsLookup "e", Ev.netGet "http://e/"]) ∧
    isHtmlContent "just some plain data" (some "text/plain") = false ∧
    ((processSingleUrl envC9 "http://e/" false false 7 DEFAULT_CONTENT_DIR st0 =
      ({ success := true,
         message := "Content type " ++ (some "text/plain").getD "unknown" ++
           " cannot be converted to markdown.\n\nRaw content:\n" ++
           strTake "just some plain data" 7,
         title := some "", contentPath := some "", fromCache := some false,
         imageCount := some 0, url := "http://e/" },
       st0,
       Ev.fsRead (pathJoin DEFAULT_CONTENT_DIR "manifest.json") ::
         (checkRobotsTxt envC9 "http://e/" ++ [Ev.dnsLookup "e", Ev.netGet "http://e/"]))) ∧
    (processSingleUrl envC9 "http://e/" false false 7 DEFAULT_CONTENT_DIR
        (processSingleUrl envC9 "http://e/" false false 7 DEFAULT_CONTENT_DIR st0).2.1 =
      processSingleUrl envC9 "http://e/" false false 7 DEFAULT_CONTENT_DIR st0) ∧
    ([Ev.dnsLookup "e", Ev.netGet "http://e/"].any
      (fun e => match e with | Ev.netGet _ => true | _ => false) = true)) :=
  ⟨by decide, by decide, by decide,
    non_html_note_without_persistence envC9 "http://e/" false 7 st0
      { html := "just some plain data", contentType := some "text/plain",
        finalUrl := "http://e/" }
      [Ev.dnsLookup "e", Ev.netGet "http://e/"] (by decide) (by decide) (by decide)⟩

/-- C8: a manifest entry whose backing `CONTENT.md` no longer reads is
treated as a miss — the pipeline runs the full fetch path instead of failing
(first conjunct), and a record is served from cache only when the entry is
present and its backing file still exists, in which case the served message
is exactly that file's content (second conjunct, for any state). -/
theorem missing_backing_file_forces_refetch (env : Env) (url : String) (images : Bool)
    (maxLength : Nat) (contentDir : String) (st st2 : St) (e : CacheEntry)
    (hentry : lookupA st.manifest url = some e)
    (hfile : lookupA st.files (pathJoin e.contentPath "CONTENT.md") = none) :
    (processSingleUrl env url images false maxLength contentDir st =
      ((fetchPath env url images maxLength contentDir st).1,
       (fetchPath env url images maxLength contentDir st).2.1,
       Ev.fsRead (pathJoin contentDir "manifest.json") ::
         Ev.fsRead (pathJoin e.contentPath "CONTENT.md") ::
         (fetchPath env url images maxLength contentDir st).2.2)) ∧
    ((processSingleUrl env url images false maxLength contentDir st2).1.fromCache = some true →
      ∃ e2 : CacheEntry, lookupA st2.manifest url = some e2 ∧
        lookupA st2.files (pathJoin e2.contentPath "CONTENT.md") =
          some (processSingleUrl env url images false maxLength contentDir st2).1.message) := by
  constructor
  · exact processSingleUrl_missFile env url images maxLength contentDir st e hentry hfile
  · intro hc
    rcases hlook : lookupA st2.manifest url with _ | cached
    · exfalso
      rw [processSingleUrl_miss env url images maxLength contentDir st2 hlook] at hc
      exact fetchPath_not_fromCache env url images maxLength contentDir st2 hc
    · rcases hfl : lookupA st2.files (pathJoin cached.contentPath "CONTENT.md") with _ | content
      · exfalso
        rw [processSingleUrl_missFile env url images maxLength contentDir st2 cached hlook hfl]
          at hc
        exact fetchPath_not_fromCache env url images maxLength contentDir st2 hc
      · refine ⟨cached, rfl, ?_⟩
        rw [processSingleUrl_hit env url images maxLength contentDir st2 cached content
          hlook hfl]
        exact hfl

/-- C8 witness: an entry for `"u"` with no file on disk falls back to the
fetch path in the inert environment. -/
theorem missing_backing_file_forces_refetch_witness :
    lookupA stC8.manifest "u" = some entryC8 ∧
    lookupA stC8.files (pathJoin entryC8.contentPath "CONTENT.md") = none ∧
    ((processSingleUrl envTriv "u" false false 10 "./context" stC8 =
      ((fetchPath envTriv "u" false 10 "./context" stC8).1,
       (fetchPath envTriv "u" false 10 "./context" stC8).2.1,
       Ev.fsRead (pathJoin "./context" "manifest.json") ::
         Ev.fsRead (pathJoin entryC8.contentPath "CONTENT.md") ::
         (fetchPath envTriv "u" false 10 "./context" stC8).2.2)) ∧
    ((processSingleUrl envTriv "u" false false 10 "./context" stC8).1.fromCache = some true →
      ∃ e2 : CacheEntry, lookupA stC8.manifest "u" = some e2 ∧
        lookupA stC8.files (pathJoin e2.contentPath "CONTENT.md") =
          some (processSingleUrl envTriv "u" false false 10 "./context" stC8).1.message)) :=
  ⟨by decide, by decide,
    missing_backing_file_forces_refetch envTriv "u" false 10 "./context" stC8 stC8 entryC8
      (by decide) (by decide)⟩

/-- C4 counterexample: after a successful first fetch, the cached second call
does set the cache-hit indicator, but its message is the persisted file —
YAML frontmatter plus markdown — and is not byte-identical to the first
call's markdown-only message. -/
theorem cached_reply_not_byte_identical :
    (processSingleUrl envC4 "http://e/" false false CHARACTER_LIMIT DEFAULT_CONTENT_DIR
        (processSingleUrl envC4 "http://e/" false false CHARACTER_LIMIT DEFAULT_CONTENT_DIR
          st0).2.1).1.fromCache = some true ∧
    (processSingleUrl envC4 "http://e/" false false CHARACTER_LIMIT DEFAULT_CONTENT_DIR
        (processSingleUrl envC4 "http://e/" false false CHARACTER_LIMIT DEFAULT_CONTENT_DIR
          st0).2.1).1.message ≠
      (processSingleUrl envC4 "http://e/" false false CHARACTER_LIMIT DEFAULT_CONTENT_DIR
        st0).1.message := by
  refine ⟨by decide, by decide⟩

/-- C4 (amended): a second request without refresh after a fresh successful
HTML fetch performs no network work (its trace is exactly the two cache
reads), sets the cache-hit indicator, leaves the state unchanged, and returns
the persisted file content — the generated frontmatter block prepended to the
first call's markdown message. -/
theorem cache_hit_prepends_frontmatter (env : Env) (url : String) (maxLength : Nat)
    (st : St) (fr : FetchOk) (evF : List Ev)
    (hmiss : lookupA st.manifest url = none)
    (hfetch : fetchWithLimits env url = (.ok fr, evF))
    (hhtml : isHtmlContent fr.html fr.contentType = true) :
    (processSingleUrl env url false false maxLength DEFAULT_CONTENT_DIR st).1.success = true ∧
    (processSingleUrl env url false false maxLength DEFAULT_CONTENT_DIR st).1.fromCache =
      some false ∧
    (processSingleUrl env url false false maxLength DEFAULT_CONTENT_DIR
        (processSingleUrl env url false false maxLength DEFAULT_CONTENT_DIR st).2.1).1.fromCache =
      some true ∧
    (processSingleUrl env url false false maxLength DEFAULT_CONTENT_DIR
        (processSingleUrl env url false false maxLength DEFAULT_CONTENT_DIR st).2.1).1.message =
      generateFrontmatter url
        (jsOrStr ((env.extract fr.html fr.finalUrl).title.getD "") "Untitled")
        (env.extract fr.html fr.finalUrl).description env.nowISO false ++
      (processSingleUrl env url false false maxLength DEFAULT_CONTENT_DIR st).1.message ∧
    (processSingleUrl env url false false maxLength DEFAULT_CONTENT_DIR
        (processSingleUrl env url false false maxLength DEFAULT_CONTENT_DIR st).2.1).2.1 =
      (processSingleUrl env url false false maxLength DEFAULT_CONTENT_DIR st).2.1 ∧
    (processSingleUrl env url false false maxLength DEFAULT_CONTENT_DIR
        (processSingleUrl env url false false maxLength DEFAULT_CONTENT_DIR st).2.1).2.2 =
      [Ev.fsRead (pathJoin DEFAULT_CONTENT_DIR "manifest.json"),
       Ev.fsRead (pathJoin (pathJoin DEFAULT_CONTENT_DIR
         (sanitizeDirname env.parse env.nowMs
           ((env.extract fr.html fr.finalUrl).title.getD "") url)) "CONTENT.md")] := by
  have h1 := processSingleUrl_miss env url false maxLength DEFAULT_CONTENT_DIR st hmiss
  have h2 := fetchPath_html_run env url maxLength DEFAULT_CONTENT_DIR st fr evF hfetch hhtml
  have hfirst := h1.trans (by rw [h2])
  have hst1 : (processSingleUrl env url false false maxLength DEFAULT_CONTENT_DIR st).2.1 =
      (htmlRunOutcome env url maxLength DEFAULT_CONTENT_DIR st fr evF).2.1 := by
    rw [hfirst]
  have hmsg1 : (processSingleUrl env url false false maxLength DEFAULT_CONTENT_DIR st).1.message =
      truncateContent (env.extract fr.html fr.finalUrl).markdown maxLength := by
    rw [hfirst]
    rfl
  have hsecond := processSingleUrl_hit env url false maxLength DEFAULT_CONTENT_DIR
    (htmlRunOutcome env url maxLength DEFAULT_CONTENT_DIR st fr evF).2.1
    { directory := sanitizeDirname env.parse env.nowMs
        ((env.extract fr.html fr.finalUrl).title.getD "") url,
      title := jsOrStr ((env.extract fr.html fr.finalUrl).title.getD "") "Untitled",
      fetched := env.nowISO,
      contentPath := pathJoin DEFAULT_CONTENT_DIR
        (sanitizeDirname env.parse env.nowMs
          ((env.extract fr.html fr.finalUrl).title.getD "") url),
      contentHash := generateContentHash
        (truncateContent (env.extract fr.html fr.finalUrl).markdown maxLength),
      imageCount := 0,
      charCount := (truncateContent (env.extract fr.html fr.finalUrl).markdown maxLength).length }
    (generateFrontmatter url
      (jsOrStr ((env.extract fr.html fr.finalUrl).title.getD "") "Untitled")
      (env.extract fr.html fr.finalUrl).description env.nowISO false ++
      truncateContent (env.extract fr.html fr.finalUrl).markdown maxLength)
    (by exact lookupA_updateA_self _ _ _) (by exact lookupA_updateA_self _ _ _)
  refine ⟨by rw [hfirst]; rfl, by rw [hfirst]; rfl, ?_, ?_, ?_, ?_⟩
  · rw [hst1, hsecond]
  · rw [hst1, hsecond, hmsg1]
  · rw [hst1, hsecond]
  · rw [hst1, hsecond]

/-- C4 amended witness: the concrete two-call run on `envC4`. -/
theorem cache_hit_prepends_frontmatter_witness :
    lookupA st0.manifest "http://e/" = none ∧
    fetchWithLimits envC4 "http://e/" =
      (.ok { html := "<html><body>Hello</body></html>",
             contentType := some "text/html", finalUrl := "http://e/" },
       [Ev.dnsLookup "e", Ev.netGet "http://e/"]) ∧
    isHtmlContent "<html><body>Hello</body></html>" (some "text/html") = true ∧
    ((processSingleUrl envC4 "http://e/" false false 25000 DEFAULT_CONTENT_DIR st0).1.success = true ∧
    (processSingleUrl envC4 "http://e/" false false 25000 DEFAULT_CONTENT_DIR st0).1.fromCache =
      some false ∧
    (processSingleUrl envC4 "http://e/" false false 25000 DEFAULT_CONTENT_DIR
        (processSingleUrl envC4 "http://e/" false false 25000 DEFAULT_CONTENT_DIR st0).2.1).1.fromCache =
      some true ∧
    (processSingleUrl envC4 "http://e/" false false 25000 DEFAULT_CONTENT_DIR
        (processSingleUrl envC4 "http://e/" false false 25000 DEFAULT_CONTENT_DIR st0).2.1).1.message =
      generateFrontmatter "http://e/"
        (jsOrStr ((envC4.extract "<html><body>Hello</body></html>" "http://e/").title.getD "") "Untitled")
        (envC4.extract "<html><body>Hello</body></html>" "http://e/").description envC4.nowISO false ++
      (processSingleUrl envC4 "http://e/" false false 25000 DEFAULT_CONTENT_DIR st0).1.message ∧
    (processSingleUrl envC4 "http://e/" false false 25000 DEFAULT_CONTENT_DIR
        (processSingleUrl envC4 "http://e/" false false 25000 DEFAULT_CONTENT_DIR st0).2.1).2.1 =
      (processSingleUrl envC4 "http://e/" false false 25000 DEFAULT_CONTENT_DIR st0).2.1 ∧
    (processSingleUrl envC4 "http://e/" false false 25000 DEFAULT_CONTENT_DIR
        (processSingleUrl envC4 "http://e/" false false 25000 DEFAULT_CONTENT_DIR st0).2.1).2.2 =
      [Ev.fsRead (pathJoin DEFAULT_CONTENT_DIR "manifest.json"),
       Ev.fsRead (pathJoin (pathJoin DEFAULT_CONTENT_DIR
         (sanitizeDirname envC4.parse envC4.nowMs
           ((envC4.extract "<html><body>Hello</body></html>" "http://e/").title.getD "") "http://e/")) "CONTENT.md")]) :=
  ⟨by decide, by decide, by decide,
    cache_hit_prepends_frontmatter envC4 "http://e/" 25000 st0
      { html := "<html><body>Hello</body></html>",
        contentType := some "text/html", finalUrl := "http://e/" }
      [Ev.dnsLookup "e", Ev.netGet "http://e/"] (by decide) (by decide) (by decide)⟩

end ContextMcp
